import Mathlib

/-!
Shallow embedding of the reasoning-provider orchestration layer of
`src/services/ReasoningService.ts` (class `ReasoningService`), together with
theorems settling the specification claims about it.

Conventions of the embedding:
* JS strings are Lean `String`; JS truthiness of a string is `s ≠ ""`.
* Optional / possibly-absent JS fields are `Option`.
* The mutable per-instance state (`openAiEndpointPreference` map and the
  JSON object persisted under the `openAiEndpointPreference` storage key)
  is an explicit `ServiceState` record that functions take and return.
* Network I/O is modelled by oracles: a function from the attempted
  endpoint candidate to the observed `FetchOutcome`.
* Helpers that live outside the provided source file
  (`calculateMaxTokens`, `buildApiUrl`, the `TOKEN_LIMITS` constants,
  `normalizeBaseUrl`, `getModelProvider`) are either modelled from the
  spec (marked in their doc comment) or kept as parameters.
-/

set_option autoImplicit false

deriving instance DecidableEq for Except

/-- The two OpenAI wire shapes, `"responses" | "chat"` in the source. -/
inductive EndpointShape where
  | responses
  | chat
deriving DecidableEq, Repr

/-- String stored for a shape in the persisted preference object. -/
def shapeString : EndpointShape → String
  | .responses => "responses"
  | .chat => "chat"

/-- `{ url, type }` element of `getOpenAIEndpointCandidates`' result. -/
structure Candidate where
  url : String
  shape : EndpointShape
deriving DecidableEq, Repr

/-- Mutable state of a `ReasoningService` instance relevant to endpoint
negotiation: the in-memory `openAiEndpointPreference` map and the parsed
durable-storage object under key `"openAiEndpointPreference"` (`none`
models a missing / unparseable / non-object raw value; string values are
kept raw because the source validates them on read). -/
structure ServiceState where
  memoryPref : String → Option EndpointShape
  storage : Option (String → Option String)

/-- A state with empty memory map and no persisted object. -/
def emptyServiceState : ServiceState :=
  { memoryPref := fun _ => none, storage := none }

/-- Embedding of `getStoredOpenAiPreference` (lines 98-126): the in-memory
map is consulted first; on a miss the persisted object is read and its
value accepted only if it is literally `"responses"` or `"chat"`.  The
source additionally memoises a storage hit into the in-memory map
(line 118); that write does not change the returned value and is modelled
separately by `rememberOpenAiPreference`, so this read is pure. -/
def getStoredOpenAiPreference (st : ServiceState) (base : String) :
    Option EndpointShape :=
  match st.memoryPref base with
  | some p => some p
  | none =>
    match st.storage with
    | none => none
    | some obj =>
      match obj base with
      | some v =>
        if v = "responses" then some .responses
        else if v = "chat" then some .chat
        else none
      | none => none

/-- Embedding of `rememberOpenAiPreference` (lines 128-147): write the
in-memory map, then best-effort merge `{base: pref}` into the persisted
object (starting from `{}` when it is absent or unparseable). -/
def rememberOpenAiPreference (st : ServiceState) (base : String)
    (p : EndpointShape) : ServiceState :=
  { memoryPref := fun b => if b = base then some p else st.memoryPref b
    storage :=
      some (fun b =>
        if b = base then some (shapeString p)
        else
          match st.storage with
          | some obj => obj b
          | none => none) }

/-- Modelled from the spec: `buildApiUrl` lives in `src/config/constants`
which is not part of the provided source; §6 describes the endpoints as
"OpenAI base + `/responses` or `/chat/completions`", i.e. path
concatenation onto the base URL. -/
def buildApiUrl (base path : String) : String :=
  base ++ path

/-- `needle` is a prefix of `hay` (over character lists). -/
def listPrefixOf : List Char → List Char → Bool
  | [], _ => true
  | _ :: _, [] => false
  | a :: as, b :: bs => a == b && listPrefixOf as bs

/-- `needle` occurs contiguously inside `hay` (over character lists). -/
def listInfixOf : List Char → List Char → Bool
  | needle, [] => listPrefixOf needle []
  | needle, hay@(_ :: tl) => listPrefixOf needle hay || listInfixOf needle tl

/-- JS `String.prototype.includes`: substring containment. -/
def strIncludes (hay needle : String) : Bool :=
  listInfixOf needle.toList hay.toList

/-- JS `String.prototype.trim` (whitespace stripped from both ends),
defined by structural list recursion so that it evaluates by `decide`. -/
def jsTrim (s : String) : String :=
  ⟨(((s.data.dropWhile Char.isWhitespace).reverse).dropWhile Char.isWhitespace).reverse⟩

/-- JS `String.prototype.toLowerCase` (ASCII-relevant part). -/
def strToLower (s : String) : String :=
  ⟨s.data.map Char.toLower⟩

/-- JS `String.prototype.startsWith`. -/
def strStartsWith (s p : String) : Bool :=
  listPrefixOf p.data s.data

/-- JS `String.prototype.endsWith`. -/
def strEndsWith (s p : String) : Bool :=
  listPrefixOf p.data.reverse s.data.reverse

/-- Embedding of `getOpenAIEndpointCandidates` (lines 75-96): a base URL
already ending (case-insensitively) in a shape-specific suffix yields the
single candidate of that shape at the base URL itself; otherwise a stored
`"chat"` preference yields the single chat candidate; otherwise both
candidates in order, responses first. -/
def getOpenAIEndpointCandidates (st : ServiceState) (base : String) :
    List Candidate :=
  let lower := strToLower base
  if strEndsWith lower ("/responses") || strEndsWith lower ("/chat/completions") then
    [{ url := base
       shape := if strEndsWith lower ("/responses") then .responses else .chat }]
  else
    match getStoredOpenAiPreference st base with
    | some .chat => [{ url := buildApiUrl base ("/chat/completions"), shape := .chat }]
    | _ =>
      [{ url := buildApiUrl base ("/responses"), shape := .responses },
       { url := buildApiUrl base ("/chat/completions"), shape := .chat }]

/-- The known non-OpenAI provider host substrings (lines 43-47). -/
def knownNonOpenAIUrls : List String :=
  ["api.groq.com", "api.anthropic.com", "generativelanguage.googleapis.com"]

/-- `knownNonOpenAIUrls.some((url) => normalized.includes(url))` (line 49). -/
def isKnownNonOpenAI (normalized : String) : Bool :=
  knownNonOpenAIUrls.any (fun u => strIncludes normalized u)

/-- Loopback test of line 59-60: the normalized URL contains
`"://localhost"` or `"://127.0.0.1"`. -/
def isLocalhostUrl (normalized : String) : Bool :=
  strIncludes normalized ("://localhost") || strIncludes normalized ("://127.0.0.1")

/-- Embedding of `getConfiguredOpenAIBase` (lines 25-73), parametric in
the built-in default `API_ENDPOINTS.OPENAI_BASE` and in `normalizeBaseUrl`
(both defined in `src/config/constants`, outside the provided source) and
in the stored `"cloudReasoningBaseUrl"` value.  An empty/absent stored
value yields the default; a normalization result that is falsy (empty) is
replaced by the default before the checks; a known non-OpenAI URL is
rejected; a URL that is neither `https://` nor loopback is rejected. -/
def getConfiguredOpenAIBase (defaultBase : String)
    (normalizeBaseUrl : String → String) (stored : Option String) : String :=
  let trimmed := jsTrim (stored.getD "")
  if trimmed = "" then defaultBase
  else
    let n := normalizeBaseUrl trimmed
    let normalized := if n = "" then defaultBase else n
    if isKnownNonOpenAI normalized then defaultBase
    else if !(strStartsWith normalized ("https://")) && !(isLocalhostUrl normalized) then
      defaultBase
    else normalized

/-- One element of `content[]` inside a Responses-API `output[]` item:
the fields `type` and (optional string) `text` the source reads. -/
structure OutputContent where
  type : String
  text : Option String
deriving DecidableEq, Repr

/-- One element of Responses-API `output[]`: field `type` and optional
`content` array. -/
structure OutputItem where
  type : String
  content : Option (List OutputContent)
deriving DecidableEq, Repr

/-- One element of a chat-shape content array: the source only reads
`part?.text` and requires it to be a string (`none` models a part whose
`text` is absent or not a string). -/
structure ChatPart where
  text : Option String
deriving DecidableEq, Repr

/-- The `content` field of a chat message/delta: a plain string, an array
of parts, or anything else (absent / other type). -/
inductive MsgContent where
  | strC (s : String)
  | arrC (ps : List ChatPart)
  | otherC
deriving DecidableEq, Repr

/-- A chat `message`/`delta` object: only `content` is read. -/
structure ChatMessage where
  content : MsgContent
deriving DecidableEq, Repr

/-- One element of `choices[]`: `message`, `delta` and the legacy `text`
field (kept when it is a string). -/
structure Choice where
  message : Option ChatMessage
  delta : Option ChatMessage
  text : Option String
deriving DecidableEq, Repr

/-- A parsed 2xx OpenAI JSON body as read by `processWithOpenAI`
(lines 524-607): `output` present iff `Array.isArray(response?.output)`,
`output_text` present iff it is a string, `choices` present iff
`Array.isArray(response?.choices)`. -/
structure OpenAIResponse where
  output : Option (List OutputItem)
  output_text : Option String
  choices : Option (List Choice)
deriving DecidableEq, Repr

/-- Inner loop over a message item's `content[]` (lines 546-551): the
first entry with `type === "output_text"` and truthy `text` assigns
`text.trim()` and breaks; `none` means the loop finished unassigned. -/
def scanOutputContents : List OutputContent → Option String
  | [] => none
  | c :: rest =>
    if c.type = "output_text" ∧ c.text.getD "" ≠ "" then
      some (jsTrim (c.text.getD ""))
    else scanOutputContents rest

/-- Outer loop over `output[]` (lines 543-555): the loop stops at the
first non-empty assigned text; an assignment of a whitespace-only text
leaves `responseText` empty and scanning continues with later items. -/
def scanOutput : List OutputItem → String
  | [] => ""
  | item :: rest =>
    if item.type = "message" ∧ item.content.isSome then
      match scanOutputContents (item.content.getD []) with
      | some t => if t ≠ "" then t else scanOutput rest
      | none => scanOutput rest
    else scanOutput rest

/-- Inner loop over an array-of-parts content (lines 571-578): first part
whose `text` is a string with non-empty trim assigns and breaks. -/
def scanParts : List ChatPart → String
  | [] => ""
  | p :: rest =>
    match p.text with
    | some s => if jsTrim s ≠ "" then jsTrim s else scanParts rest
    | none => scanParts rest

/-- Per-choice extraction (lines 562-585): `message ?? delta` content as
a non-blank string, else as an array of parts, else the legacy non-blank
`choice.text` string; `""` means nothing was assigned for this choice. -/
def choiceText (ch : Choice) : String :=
  let msg := match ch.message with
    | some m => some m
    | none => ch.delta
  let fromContent :=
    match msg with
    | none => ""
    | some m =>
      match m.content with
      | .strC s => jsTrim s
      | .arrC ps => scanParts ps
      | .otherC => ""
  if fromContent ≠ "" then fromContent
  else
    match ch.text with
    | some s => if jsTrim s ≠ "" then jsTrim s else ""
    | none => ""

/-- Loop over `choices[]` (lines 561-587). -/
def scanChoices : List Choice → String
  | [] => ""
  | ch :: rest =>
    let t := choiceText ch
    if t ≠ "" then t else scanChoices rest

/-- Full extraction cascade of `processWithOpenAI` (lines 540-587):
Responses-shape scan, then top-level `output_text` string, then
chat-shape `choices[]` scan; `""` when every path yields empty. -/
def extractOpenAIText (r : OpenAIResponse) : String :=
  let t1 := match r.output with
    | some items => scanOutput items
    | none => ""
  let t2 := if t1 = "" then
      match r.output_text with
      | some s => jsTrim s
      | none => t1
    else t1
  if t2 = "" then
    match r.choices with
    | some cs => scanChoices cs
    | none => t2
  else t2

/-- Final result selection of `processWithOpenAI` (lines 598-607): an
empty extraction returns the original input text unchanged. -/
def openAIFinalText (text : String) (r : OpenAIResponse) : String :=
  let responseText := extractOpenAIText r
  if responseText = "" then text else responseText

/-- Observable outcome of one `fetch` on one endpoint candidate inside
`processWithOpenAI`'s loop: a 2xx JSON body, a non-2xx status together
with the error message derived from its body (lines 486-488), or an
exception thrown by the transport / body handling. -/
inductive FetchOutcome where
  | success (resp : OpenAIResponse)
  | httpError (status : Nat) (msg : String)
  | thrown (msg : String)
deriving Repr

/-- Result of the candidate loop: the value returned or error thrown, the
final preference state, and the list of candidates actually attempted
(in order). -/
structure LoopResult where
  result : Except String OpenAIResponse
  finalState : ServiceState
  attempted : List Candidate

/-- Embedding of the endpoint-candidate loop inside `processWithOpenAI`
(lines 456-521), the body of a single retry-executor attempt.  `oracle`
gives each candidate's fetch outcome.  On a 2xx the candidate's shape is
remembered and the body returned.  On a non-2xx, the derived error is
thrown inside the `try`; 404/405 on the `responses` shape first records
a `"chat"` preference (line 495).  The surrounding `catch` turns any
failure of a `responses` candidate into `lastError := e; continue`, and
rethrows failures of a `chat` candidate.  An exhausted list throws the
last error, or the no-endpoint message when nothing was attempted. -/
def runCandidates (oracle : Candidate → FetchOutcome) (base : String) :
    ServiceState → List Candidate → Option String → LoopResult
  | st, [], lastError =>
    { result := .error (lastError.getD "No OpenAI endpoint responded")
      finalState := st
      attempted := [] }
  | st, c :: rest, _lastError =>
    match oracle c with
    | .success resp =>
      { result := .ok resp
        finalState := rememberOpenAiPreference st base c.shape
        attempted := [c] }
    | .httpError status msg =>
      if (status = 404 ∨ status = 405) ∧ c.shape = .responses then
        let st' := rememberOpenAiPreference st base .chat
        let k := runCandidates oracle base st' rest (some msg)
        { result := k.result, finalState := k.finalState, attempted := c :: k.attempted }
      else if c.shape = .responses then
        let k := runCandidates oracle base st rest (some msg)
        { result := k.result, finalState := k.finalState, attempted := c :: k.attempted }
      else
        { result := .error msg, finalState := st, attempted := [c] }
    | .thrown msg =>
      if c.shape = .responses then
        let k := runCandidates oracle base st rest (some msg)
        { result := k.result, finalState := k.finalState, attempted := c :: k.attempted }
      else
        { result := .error msg, finalState := st, attempted := [c] }

/-- Observable outcome of one direct-HTTP driver call: the value returned
or error thrown, the guard value after the call, and whether the driver
entered its network phase (the `try` block containing `fetch`). -/
structure DriverRun where
  result : Except String String
  guardAfter : Bool
  networkCalled : Bool
deriving DecidableEq, Repr

/-- Guard/credential skeleton of `processWithOpenAI` (lines 408-618):
a set guard throws `"Already processing a request"` before the key is
fetched and before any network request; a missing key throws before the
guard is set; otherwise the guard is set, the network phase (abstracted
as `bodyResult`) runs inside `try`, and the `finally` clears the guard
unconditionally. -/
def processWithOpenAIRun (guard : Bool) (key : Option String)
    (bodyResult : Except String String) : DriverRun :=
  if guard then
    { result := .error "Already processing a request", guardAfter := guard
      networkCalled := false }
  else
    match key with
    | none =>
      { result := .error "Openai API key not configured", guardAfter := false
        networkCalled := false }
    | some _ =>
      { result := bodyResult, guardAfter := false, networkCalled := true }

/-- Guard/credential skeleton of `processWithGemini` (lines 722-894),
identical in structure to the OpenAI driver. -/
def processWithGeminiRun (guard : Bool) (key : Option String)
    (bodyResult : Except String String) : DriverRun :=
  if guard then
    { result := .error "Already processing a request", guardAfter := guard
      networkCalled := false }
  else
    match key with
    | none =>
      { result := .error "Gemini API key not configured", guardAfter := false
        networkCalled := false }
    | some _ =>
      { result := bodyResult, guardAfter := false, networkCalled := true }

/-- Guard/credential skeleton of `processWithGroq` (lines 896-932),
identical in structure to the OpenAI driver. -/
def processWithGroqRun (guard : Bool) (key : Option String)
    (bodyResult : Except String String) : DriverRun :=
  if guard then
    { result := .error "Already processing a request", guardAfter := guard
      networkCalled := false }
  else
    match key with
    | none =>
      { result := .error "Groq API key not configured", guardAfter := false
        networkCalled := false }
    | some _ =>
      { result := bodyResult, guardAfter := false, networkCalled := true }

/-- Envelope returned by a delegated reasoning capability
(`processAnthropicReasoning` / `processLocalReasoning`). -/
inductive DelegateResult where
  | success (text : String)
  | failure (error : String)
deriving DecidableEq, Repr

/-- Embedding of `processWithAnthropic` (lines 620-671): when the
delegated channel is available the envelope decides the outcome; the
function never reads or writes `isProcessing` (no guard check appears in
its body), so the guard is passed through untouched and plays no role. -/
def processWithAnthropicRun (guard : Bool) (electronAvailable : Bool)
    (delegate : DelegateResult) : DriverRun :=
  if electronAvailable then
    match delegate with
    | .success t => { result := .ok t, guardAfter := guard, networkCalled := false }
    | .failure e => { result := .error e, guardAfter := guard, networkCalled := false }
  else
    { result := .error "Anthropic reasoning is not available in this environment"
      guardAfter := guard, networkCalled := false }

/-- Embedding of `processWithLocal` (lines 673-720): same structure as
`processWithAnthropic`; no guard check appears in its body. -/
def processWithLocalRun (guard : Bool) (electronAvailable : Bool)
    (delegate : DelegateResult) : DriverRun :=
  if electronAvailable then
    match delegate with
    | .success t => { result := .ok t, guardAfter := guard, networkCalled := false }
    | .failure e => { result := .error e, guardAfter := guard, networkCalled := false }
  else
    { result := .error "Local reasoning is not available in this environment"
      guardAfter := guard, networkCalled := false }

/-- A chat-completions `message` object as read by
`callChatCompletionsApi`: only `content` (optional string) is read. -/
structure CCMessage where
  content : Option String
deriving DecidableEq, Repr

/-- One element of chat-completions `choices[]` as read by
`callChatCompletionsApi`. -/
structure CCChoice where
  message : Option CCMessage
deriving DecidableEq, Repr

/-- A parsed 2xx chat-completions JSON body as read by
`callChatCompletionsApi` (lines 301-332). -/
structure CCResponse where
  choices : Option (List CCChoice)
deriving DecidableEq, Repr

/-- Response handling of `callChatCompletionsApi` (lines 301-332), used
by the Groq driver: missing/empty `choices` is an invalid-structure
error; `choices[0].message?.content?.trim() || ""` empty is an
empty-response error; otherwise the trimmed content is returned. -/
def parseChatCompletions (providerName : String) (r : CCResponse) :
    Except String String :=
  match r.choices with
  | none => .error ("Invalid response structure from " ++ providerName ++ " API")
  | some [] => .error ("Invalid response structure from " ++ providerName ++ " API")
  | some (choice :: _) =>
    let responseText :=
      match choice.message with
      | some m => jsTrim (m.content.getD "")
      | none => ""
    if responseText = "" then .error (providerName ++ " returned empty response")
    else .ok responseText

/-- One element of Gemini `content.parts[]`: only `text` is read. -/
structure GeminiPart where
  text : Option String
deriving DecidableEq, Repr

/-- Gemini candidate `content` object. -/
structure GeminiContent where
  parts : Option (List GeminiPart)
deriving DecidableEq, Repr

/-- One element of Gemini `candidates[]` as read by `processWithGemini`. -/
structure GeminiCandidate where
  content : Option GeminiContent
  finishReason : Option String
deriving DecidableEq, Repr

/-- A parsed 2xx Gemini JSON body. -/
structure GeminiResponse where
  candidates : Option (List GeminiCandidate)
deriving DecidableEq, Repr

/-- `candidate.content?.parts?.[0]?.text` (line 856). -/
def geminiFirstPartText (cand : GeminiCandidate) : Option String :=
  match cand.content with
  | none => none
  | some ct =>
    match ct.parts with
    | none => none
    | some [] => none
    | some (p :: _) => p.text

/-- The distinct Gemini token-limit error message (lines 867-869). -/
def geminiTokenLimitMsg : String :=
  "Gemini reached token limit before generating response. Try a shorter input or increase max tokens."

/-- The generic Gemini empty-response error message (line 871). -/
def geminiEmptyMsg : String :=
  "Gemini returned empty response"

/-- Response handling of `processWithGemini` (lines 843-874): missing
`candidates[0]` is an invalid-structure error; a falsy
`content?.parts?.[0]?.text` raises the token-limit error when
`finishReason === "MAX_TOKENS"` and the generic empty-response error
otherwise; a truthy text is returned trimmed. -/
def parseGeminiResponse (r : GeminiResponse) : Except String String :=
  match r.candidates with
  | none => .error "Invalid response structure from Gemini API"
  | some [] => .error "Invalid response structure from Gemini API"
  | some (cand :: _) =>
    match geminiFirstPartText cand with
    | some t =>
      if t = "" then
        if cand.finishReason = some "MAX_TOKENS" then .error geminiTokenLimitMsg
        else .error geminiEmptyMsg
      else .ok (jsTrim t)
    | none =>
      if cand.finishReason = some "MAX_TOKENS" then .error geminiTokenLimitMsg
      else .error geminiEmptyMsg

/-- Modelled from the spec: `calculateMaxTokens` is defined in
`BaseReasoningService` and the `TOKEN_LIMITS` constants in
`src/config/constants`, both outside the provided source.  §4.4 gives the
token budget as
`max(providerFloor, min(ceil(textLength × multiplier), providerCeiling))`;
the floor, ceiling and multiplier are kept as parameters since the spec
does not fix their values. -/
def calculateMaxTokens (textLength minTokens maxTokens : Nat)
    (multiplier : ℚ) : Nat :=
  max minTokens (min (⌈(textLength : ℚ) * multiplier⌉.toNat) maxTokens)

/-- The reasoning-config fields used by the token/temperature logic:
`temperature` and `maxTokens`, both optional.  Temperature is modelled as
a rational (the source only compares it against falsiness and copies it
verbatim into request bodies). -/
structure ReasoningConfig where
  temperature : Option ℚ
  maxTokens : Option Nat
deriving DecidableEq, Repr

/-- The provider default temperature, `0.3` in the source. -/
def defaultTemperature : ℚ := mkRat 3 10

/-- `max_tokens` of the chat-completions request body (lines 225-235):
`config.maxTokens || Math.max(4096, calculateMaxTokens(text.length,
TOKEN_LIMITS.MIN_TOKENS, TOKEN_LIMITS.MAX_TOKENS,
TOKEN_LIMITS.TOKEN_MULTIPLIER))`.  JS `||` treats a present `0` override
as absent. -/
def ccMaxTokens (cfg : ReasoningConfig) (textLength minTokens maxTokens : Nat)
    (multiplier : ℚ) : Nat :=
  match cfg.maxTokens with
  | some m =>
    if m = 0 then max 4096 (calculateMaxTokens textLength minTokens maxTokens multiplier)
    else m
  | none => max 4096 (calculateMaxTokens textLength minTokens maxTokens multiplier)

/-- `temperature` of the chat-completions request body (line 224):
`config.temperature ?? 0.3` — nullish coalescing, so a present `0` is
kept. -/
def ccTemperature (cfg : ReasoningConfig) : ℚ :=
  match cfg.temperature with
  | some t => t
  | none => defaultTemperature

/-- `generationConfig.maxOutputTokens` of the Gemini request body
(lines 764-774): `config.maxTokens || Math.max(2000,
calculateMaxTokens(text.length, TOKEN_LIMITS.MIN_TOKENS_GEMINI,
TOKEN_LIMITS.MAX_TOKENS_GEMINI, TOKEN_LIMITS.TOKEN_MULTIPLIER))`. -/
def geminiMaxOutputTokens (cfg : ReasoningConfig)
    (textLength minTokensGemini maxTokensGemini : Nat) (multiplier : ℚ) : Nat :=
  match cfg.maxTokens with
  | some m =>
    if m = 0 then
      max 2000 (calculateMaxTokens textLength minTokensGemini maxTokensGemini multiplier)
    else m
  | none =>
    max 2000 (calculateMaxTokens textLength minTokensGemini maxTokensGemini multiplier)

/-- `generationConfig.temperature` of the Gemini request body (line 763):
`config.temperature || 0.3` — truthy `||`, so a present `0` is replaced
by the default. -/
def geminiTemperature (cfg : ReasoningConfig) : ℚ :=
  match cfg.temperature with
  | some t => if t = 0 then defaultTemperature else t
  | none => defaultTemperature

/-- `const isOlderModel = model && (model.startsWith("gpt-4") ||
model.startsWith("gpt-3"))` (line 445). -/
def isOlderModel (model : String) : Bool :=
  model ≠ "" && (strStartsWith model ("gpt-4") || strStartsWith model ("gpt-3"))

/-- The `temperature` field of the OpenAI request body per endpoint shape
(lines 464-474): never set for the `responses` shape; for the `chat`
shape set only for older model families, to `config.temperature || 0.3`
(truthy `||`: a present `0` is replaced by the default). -/
def openAIRequestTemperature (shape : EndpointShape) (model : String)
    (cfg : ReasoningConfig) : Option ℚ :=
  match shape with
  | .responses => none
  | .chat =>
    if isOlderModel model then
      some (match cfg.temperature with
        | some t => if t = 0 then defaultTemperature else t
        | none => defaultTemperature)
    else none

/-- The closed provider set of `processText`'s dispatch switch. -/
def supportedProviders : List String :=
  ["openai", "anthropic", "local", "gemini", "groq"]

/-- Routing decision of `processText` (lines 335-383), parametric in the
external registry lookup `getModelProvider`.  It returns which driver is
invoked and with which model argument, or the validation error thrown
before any driver (and hence any credential lookup or network request)
is reached.  Note line 379: the `groq` arm passes the original `model`,
all other arms pass `trimmedModel`. -/
def processTextRoute (getModelProvider : String → String) (model : String) :
    Except String (String × String) :=
  let trimmedModel := jsTrim model
  if trimmedModel = "" then .error "No reasoning model selected"
  else
    let provider := getModelProvider trimmedModel
    if provider = "openai" then .ok (provider, trimmedModel)
    else if provider = "anthropic" then .ok (provider, trimmedModel)
    else if provider = "local" then .ok (provider, trimmedModel)
    else if provider = "gemini" then .ok (provider, trimmedModel)
    else if provider = "groq" then .ok (provider, model)
    else .error ("Unsupported reasoning provider: " ++ provider)

/-- The `model` field of the chat-completions request body (line 222) is
the driver's `model` argument verbatim. -/
def ccRequestModelField (model : String) : String := model

/-- Extraction of `candidate.content?.parts?.[0]?.text` with JS
truthiness applied: `none` when the field is absent or the empty
string. -/
def geminiTruthyText (cand : GeminiCandidate) : Option String :=
  match geminiFirstPartText cand with
  | some t => if t = "" then none else some t
  | none => none

/-- C1 counterexample: the claim asserts `processWithAnthropic` and
`processWithLocal` "check the guard defensively with the same error
semantics", but neither function reads `isProcessing` (lines 620-671 and
673-720 contain no guard check): with the guard set, both still run the
delegated call and return its result instead of the concurrency error. -/
theorem C1_counterexample :
    processWithAnthropicRun true true (.success ("ok")) =
      { result := .ok ("ok"), guardAfter := true, networkCalled := false } ∧
    (processWithAnthropicRun true true (.success ("ok"))).result ≠
      .error ("Already processing a request") ∧
    (processWithLocalRun true true (.success ("ok"))).result ≠
      .error ("Already processing a request") := by
  decide

/-- C1 (amended): every direct-HTTP driver (`processWithOpenAI`,
`processWithGemini`, `processWithGroq`) begun while `isProcessing` is
true fails immediately with the `"Already processing a request"` error
without entering its network phase; each of them clears the guard before
returning whenever it ran with the guard clear (including when the body
or the key fetch errors); `processWithAnthropic` and `processWithLocal`
do not check the guard at all — their result is independent of it and
they leave it unchanged. -/
theorem C1_guard_semantics :
    (∀ (key : Option String) (body : Except String String),
      processWithOpenAIRun true key body =
        { result := .error ("Already processing a request"), guardAfter := true
          networkCalled := false } ∧
      processWithGeminiRun true key body =
        { result := .error ("Already processing a request"), guardAfter := true
          networkCalled := false } ∧
      processWithGroqRun true key body =
        { result := .error ("Already processing a request"), guardAfter := true
          networkCalled := false }) ∧
    (∀ (key : Option String) (body : Except String String),
      (processWithOpenAIRun false key body).guardAfter = false ∧
      (processWithGeminiRun false key body).guardAfter = false ∧
      (processWithGroqRun false key body).guardAfter = false) ∧
    (∀ (g g' avail : Bool) (d : DelegateResult),
      (processWithAnthropicRun g avail d).result =
        (processWithAnthropicRun g' avail d).result ∧
      (processWithLocalRun g avail d).result =
        (processWithLocalRun g' avail d).result ∧
      (processWithAnthropicRun g avail d).guardAfter = g ∧
      (processWithLocalRun g avail d).guardAfter = g) := by
  refine ⟨fun key body => ?_, fun key body => ?_, fun g g' avail d => ?_⟩
  · exact ⟨rfl, rfl, rfl⟩
  · cases key <;>
      simp [processWithOpenAIRun, processWithGeminiRun, processWithGroqRun]
  · cases avail <;> cases d <;>
      simp [processWithAnthropicRun, processWithLocalRun]

/-- C2 counterexample: the claim asserts a non-2xx status other than
404/405 on a `responses` candidate is terminal for the call, but the
`catch` block (lines 508-518) turns any failure of a `responses`
candidate into `continue`: with the first candidate failing with HTTP
500 the loop attempts the second candidate and the call succeeds. -/
theorem C2_counterexample :
    (runCandidates
        (fun c =>
          if c.shape = .responses then .httpError 500 ("boom")
          else .success { output := none, output_text := some ("hi"), choices := none })
        ("https://h") emptyServiceState
        [{ url := "https://h/responses", shape := .responses },
         { url := "https://h/chat/completions", shape := .chat }] none).result =
      .ok { output := none, output_text := some ("hi"), choices := none } ∧
    (runCandidates
        (fun c =>
          if c.shape = .responses then .httpError 500 ("boom")
          else .success { output := none, output_text := some ("hi"), choices := none })
        ("https://h") emptyServiceState
        [{ url := "https://h/responses", shape := .responses },
         { url := "https://h/chat/completions", shape := .chat }] none).attempted =
      [{ url := "https://h/responses", shape := .responses },
       { url := "https://h/chat/completions", shape := .chat }] := by
  decide

/-- C2 (amended): in the endpoint-candidate loop, a `responses` attempt
failing with HTTP 404 or 405 records a `"chat"` preference for the base
URL and continues with the next candidate; a `responses` attempt failing
with any other HTTP status, or throwing, also continues with the next
candidate but records no preference; any failure of a `chat` candidate
is terminal — the error is thrown with no further candidate attempted;
an exhausted candidate list throws the last recorded error. -/
theorem C2_endpoint_loop :
    (∀ (oracle : Candidate → FetchOutcome) (base : String) (st : ServiceState)
        (c : Candidate) (rest : List Candidate) (le : Option String)
        (status : Nat) (msg : String),
      oracle c = .httpError status msg → (status = 404 ∨ status = 405) →
      c.shape = .responses →
      runCandidates oracle base st (c :: rest) le =
        (let k := runCandidates oracle base
            (rememberOpenAiPreference st base .chat) rest (some msg)
         { result := k.result, finalState := k.finalState
           attempted := c :: k.attempted })) ∧
    (∀ (oracle : Candidate → FetchOutcome) (base : String) (st : ServiceState)
        (c : Candidate) (rest : List Candidate) (le : Option String)
        (status : Nat) (msg : String),
      oracle c = .httpError status msg → ¬(status = 404 ∨ status = 405) →
      c.shape = .responses →
      runCandidates oracle base st (c :: rest) le =
        (let k := runCandidates oracle base st rest (some msg)
         { result := k.result, finalState := k.finalState
           attempted := c :: k.attempted })) ∧
    (∀ (oracle : Candidate → FetchOutcome) (base : String) (st : ServiceState)
        (c : Candidate) (rest : List Candidate) (le : Option String) (msg : String),
      oracle c = .thrown msg → c.shape = .responses →
      runCandidates oracle base st (c :: rest) le =
        (let k := runCandidates oracle base st rest (some msg)
         { result := k.result, finalState := k.finalState
           attempted := c :: k.attempted })) ∧
    (∀ (oracle : Candidate → FetchOutcome) (base : String) (st : ServiceState)
        (c : Candidate) (rest : List Candidate) (le : Option String)
        (status : Nat) (msg : String),
      (oracle c = .httpError status msg ∨ oracle c = .thrown msg) →
      c.shape = .chat →
      runCandidates oracle base st (c :: rest) le =
        { result := .error msg, finalState := st, attempted := [c] }) ∧
    (∀ (oracle : Candidate → FetchOutcome) (base : String) (st : ServiceState)
        (msg : String),
      runCandidates oracle base st [] (some msg) =
        { result := .error msg, finalState := st, attempted := [] }) := by
  refine ⟨?_, ?_, ?_, ?_, ?_⟩
  · intro oracle base st c rest le status msg h1 h2 h3
    simp only [runCandidates, h1]
    rw [if_pos ⟨h2, h3⟩]
  · intro oracle base st c rest le status msg h1 h2 h3
    simp only [runCandidates, h1]
    rw [if_neg (fun h => h2 h.1), if_pos h3]
  · intro oracle base st c rest le msg h1 h2
    simp only [runCandidates, h1]
    rw [if_pos h2]
  · intro oracle base st c rest le status msg h1 h2
    cases h1 with
    | inl h =>
      simp only [runCandidates, h]
      rw [if_neg (fun hc => by rw [h2] at hc; exact nomatch hc.2),
        if_neg (fun hc => by rw [h2] at hc; exact nomatch hc)]
    | inr h =>
      simp only [runCandidates, h]
      rw [if_neg (fun hc => by rw [h2] at hc; exact nomatch hc)]
  · intro oracle base st msg
    simp [runCandidates]

/-- C2 witness: concrete instances of each conjunct of
`C2_endpoint_loop`. -/
theorem C2_endpoint_loop_witness :
    (runCandidates (fun _ => .httpError 404 ("nf")) ("b") emptyServiceState
        [{ url := "u", shape := .responses }] none =
      (let k := runCandidates (fun _ => .httpError 404 ("nf")) ("b")
          (rememberOpenAiPreference emptyServiceState ("b") .chat) [] (some ("nf"))
       { result := k.result, finalState := k.finalState
         attempted := { url := "u", shape := .responses } :: k.attempted })) ∧
    (runCandidates (fun _ => .httpError 500 ("x")) ("b") emptyServiceState
        [{ url := "u", shape := .responses }] none =
      (let k := runCandidates (fun _ => .httpError 500 ("x")) ("b")
          emptyServiceState [] (some ("x"))
       { result := k.result, finalState := k.finalState
         attempted := { url := "u", shape := .responses } :: k.attempted })) ∧
    (runCandidates (fun _ => .thrown ("t")) ("b") emptyServiceState
        [{ url := "u", shape := .responses }] none =
      (let k := runCandidates (fun _ => .thrown ("t")) ("b")
          emptyServiceState [] (some ("t"))
       { result := k.result, finalState := k.finalState
         attempted := { url := "u", shape := .responses } :: k.attempted })) ∧
    (runCandidates (fun _ => .httpError 401 ("denied")) ("b") emptyServiceState
        [{ url := "u", shape := .chat }] none =
      { result := .error ("denied"), finalState := emptyServiceState
        attempted := [{ url := "u", shape := .chat }] }) ∧
    (runCandidates (fun _ => .success { output := none, output_text := none, choices := none })
        ("b") emptyServiceState [] (some ("last")) =
      { result := .error ("last"), finalState := emptyServiceState, attempted := [] }) := by
  refine ⟨?_, ?_, ?_, ?_, ?_⟩
  · exact C2_endpoint_loop.1 _ _ _ _ _ _ 404 _ rfl (Or.inl rfl) rfl
  · exact C2_endpoint_loop.2.1 _ _ _ _ _ _ 500 _ rfl (by decide) rfl
  · exact C2_endpoint_loop.2.2.1 _ _ _ _ _ _ _ rfl rfl
  · exact C2_endpoint_loop.2.2.2.1 _ _ _ _ _ _ 401 _ (Or.inl rfl) rfl
  · exact C2_endpoint_loop.2.2.2.2 _ _ _ _

/-- C3: whenever the full extraction cascade of `processWithOpenAI`
(Responses-shape `output[]` scan, top-level `output_text`, chat-shape
`choices[]` scan including array-of-parts and legacy `choice.text`)
yields no non-empty text, the driver returns the original input text
unchanged; a non-empty extraction is returned as-is; and this
substitution exists only in the OpenAI driver — the chat-completions
helper used by Groq raises the empty-response error on an empty
extraction, and the Gemini driver raises an error whenever
`candidates[0]` has no truthy first-part text, so neither ever returns
the input text in place of an empty result. -/
theorem C3_openai_empty_fallback :
    (∀ (text : String) (r : OpenAIResponse),
      extractOpenAIText r = "" → openAIFinalText text r = text) ∧
    (∀ (text : String) (r : OpenAIResponse),
      extractOpenAIText r ≠ "" → openAIFinalText text r = extractOpenAIText r) ∧
    (∀ (providerName : String) (choice : CCChoice) (rest : List CCChoice),
      (match choice.message with
        | some m => jsTrim (m.content.getD "")
        | none => "") = "" →
      parseChatCompletions providerName { choices := some (choice :: rest) } =
        .error (providerName ++ " returned empty response")) ∧
    (∀ (r : GeminiResponse) (cand : GeminiCandidate) (rest : List GeminiCandidate),
      r.candidates = some (cand :: rest) → geminiTruthyText cand = none →
      ∀ s, parseGeminiResponse r ≠ .ok s) := by
  refine ⟨?_, ?_, ?_, ?_⟩
  · intro text r h
    simp [openAIFinalText, h]
  · intro text r h
    simp [openAIFinalText, h]
  · intro providerName choice rest h
    simp only [parseChatCompletions, h]
    simp
  · intro r cand rest h1 h2 s
    simp only [parseGeminiResponse, h1]
    simp only [geminiTruthyText] at h2
    cases hft : geminiFirstPartText cand with
    | none =>
      simp only [hft]
      split <;> simp
    | some t =>
      rw [hft] at h2
      by_cases ht : t = ""
      · subst ht
        simp only [hft, if_true]
        split <;> simp
      · simp [ht] at h2

/-- C3 witness: a response whose Responses-shape scan, `output_text` and
chat-shape scan all come up empty is replaced by the original input; a
non-empty `output_text` is returned; the Groq helper and the Gemini
parser error on their empty shapes. -/
theorem C3_openai_empty_fallback_witness :
    openAIFinalText ("original input")
      { output := some [{ type := "message", content := some [{ type := "output_text", text := some ("   ") }] }]
        output_text := some ("  ")
        choices := some [{ message := some { content := .strC ("  ") }, delta := none, text := some (" ") }] } =
      "original input" ∧
    openAIFinalText ("original input")
      { output := none, output_text := some ("hi"), choices := none } = "hi" ∧
    parseChatCompletions ("Groq") { choices := some [{ message := some { content := some ("  ") } }] } =
      .error ("Groq returned empty response") ∧
    ∀ s, parseGeminiResponse
        { candidates := some [{ content := some { parts := some [] }, finishReason := none }] } ≠
      .ok s := by
  refine ⟨?_, ?_, ?_, ?_⟩
  · exact C3_openai_empty_fallback.1 _ _ (by decide)
  · exact C3_openai_empty_fallback.2.1 _ _ (by decide)
  · exact C3_openai_empty_fallback.2.2.1 _ _ _ (by decide)
  · exact C3_openai_empty_fallback.2.2.2 _ _ _ rfl (by decide)

/-- C4 counterexample: the claim's consequent says that once a base URL
is marked `"chat"` every subsequent call attempts only the chat
endpoint, but the suffix branch of `getOpenAIEndpointCandidates`
(lines 80-83) takes priority over the stored preference: a base URL
ending in `/responses` that has been marked `"chat"` (as the loop does
after a 404 on it, line 495) still yields only the responses
candidate. -/
theorem C4_counterexample :
    getStoredOpenAiPreference
        (rememberOpenAiPreference emptyServiceState ("https://h/responses") .chat)
        ("https://h/responses") = some .chat ∧
    getOpenAIEndpointCandidates
        (rememberOpenAiPreference emptyServiceState ("https://h/responses") .chat)
        ("https://h/responses") =
      [{ url := "https://h/responses", shape := .responses }] := by
  decide

/-- C4 (amended): for every base URL, `getOpenAIEndpointCandidates`
returns (a) exactly one candidate of the matching shape when the base
URL case-insensitively ends in `/responses` or `/chat/completions`;
(b) otherwise exactly one chat candidate when the stored preference is
`"chat"` (read through memory first, then durable storage); (c)
otherwise the two candidates responses-then-chat.  Consequently, once a
base URL **whose lowercase form does not end in one of the two
shape-specific suffixes** is marked `"chat"`, every subsequent call with
that base URL attempts only the chat endpoint. -/
theorem C4_candidate_selection :
    (∀ (st : ServiceState) (base : String),
      strEndsWith (strToLower base) ("/responses") = true →
      getOpenAIEndpointCandidates st base = [{ url := base, shape := .responses }]) ∧
    (∀ (st : ServiceState) (base : String),
      strEndsWith (strToLower base) ("/responses") = false →
      strEndsWith (strToLower base) ("/chat/completions") = true →
      getOpenAIEndpointCandidates st base = [{ url := base, shape := .chat }]) ∧
    (∀ (st : ServiceState) (base : String),
      strEndsWith (strToLower base) ("/responses") = false →
      strEndsWith (strToLower base) ("/chat/completions") = false →
      getStoredOpenAiPreference st base = some .chat →
      getOpenAIEndpointCandidates st base =
        [{ url := buildApiUrl base ("/chat/completions"), shape := .chat }]) ∧
    (∀ (st : ServiceState) (base : String),
      strEndsWith (strToLower base) ("/responses") = false →
      strEndsWith (strToLower base) ("/chat/completions") = false →
      getStoredOpenAiPreference st base ≠ some .chat →
      getOpenAIEndpointCandidates st base =
        [{ url := buildApiUrl base ("/responses"), shape := .responses },
         { url := buildApiUrl base ("/chat/completions"), shape := .chat }]) ∧
    (∀ (st : ServiceState) (base : String) (p : EndpointShape),
      st.memoryPref base = some p → getStoredOpenAiPreference st base = some p) ∧
    (∀ (st : ServiceState) (base : String) (obj : String → Option String),
      st.memoryPref base = none → st.storage = some obj → obj base = some ("chat") →
      getStoredOpenAiPreference st base = some .chat) ∧
    (∀ (st : ServiceState) (base : String),
      strEndsWith (strToLower base) ("/responses") = false →
      strEndsWith (strToLower base) ("/chat/completions") = false →
      getOpenAIEndpointCandidates (rememberOpenAiPreference st base .chat) base =
        [{ url := buildApiUrl base ("/chat/completions"), shape := .chat }]) := by
  have hmem : ∀ (st : ServiceState) (base : String) (p : EndpointShape),
      st.memoryPref base = some p → getStoredOpenAiPreference st base = some p := by
    intro st base p h
    simp [getStoredOpenAiPreference, h]
  have hchat : ∀ (st : ServiceState) (base : String),
      strEndsWith (strToLower base) ("/responses") = false →
      strEndsWith (strToLower base) ("/chat/completions") = false →
      getStoredOpenAiPreference st base = some .chat →
      getOpenAIEndpointCandidates st base =
        [{ url := buildApiUrl base ("/chat/completions"), shape := .chat }] := by
    intro st base h1 h2 h3
    simp [getOpenAIEndpointCandidates, h1, h2, h3]
  refine ⟨?_, ?_, hchat, ?_, hmem, ?_, ?_⟩
  · intro st base h
    simp [getOpenAIEndpointCandidates, h]
  · intro st base h1 h2
    simp [getOpenAIEndpointCandidates, h1, h2]
  · intro st base h1 h2 h3
    cases h : getStoredOpenAiPreference st base with
    | none => simp [getOpenAIEndpointCandidates, h1, h2, h]
    | some p =>
      cases p with
      | responses => simp [getOpenAIEndpointCandidates, h1, h2, h]
      | chat => exact absurd h h3
  · intro st base obj h1 h2 h3
    simp [getStoredOpenAiPreference, h1, h2, h3]
  · intro st base h1 h2
    exact hchat _ _ h1 h2 (hmem _ _ _ (by simp [rememberOpenAiPreference]))

/-- C4 witness: concrete instances of each conjunct of
`C4_candidate_selection`. -/
theorem C4_candidate_selection_witness :
    getOpenAIEndpointCandidates emptyServiceState ("https://h/RESPONSES") =
      [{ url := "https://h/RESPONSES", shape := .responses }] ∧
    getOpenAIEndpointCandidates emptyServiceState ("https://h/chat/completions") =
      [{ url := "https://h/chat/completions", shape := .chat }] ∧
    getOpenAIEndpointCandidates
        { memoryPref := fun b => if b = "https://h" then some .chat else none
          storage := none } ("https://h") =
      [{ url := buildApiUrl ("https://h") ("/chat/completions"), shape := .chat }] ∧
    getOpenAIEndpointCandidates emptyServiceState ("https://h") =
      [{ url := buildApiUrl ("https://h") ("/responses"), shape := .responses },
       { url := buildApiUrl ("https://h") ("/chat/completions"), shape := .chat }] ∧
    getStoredOpenAiPreference
        { memoryPref := fun b => if b = "https://h" then some .responses else none
          storage := none } ("https://h") = some .responses ∧
    getStoredOpenAiPreference
        { memoryPref := fun _ => none
          storage := some (fun b => if b = "https://h" then some ("chat") else none) }
        ("https://h") = some .chat ∧
    getOpenAIEndpointCandidates
        (rememberOpenAiPreference emptyServiceState ("https://h") .chat) ("https://h") =
      [{ url := buildApiUrl ("https://h") ("/chat/completions"), shape := .chat }] := by
  refine ⟨?_, ?_, ?_, ?_, ?_, ?_, ?_⟩
  · exact C4_candidate_selection.1 _ _ (by decide)
  · exact C4_candidate_selection.2.1 _ _ (by decide) (by decide)
  · exact C4_candidate_selection.2.2.1 _ _ (by decide) (by decide) (by decide)
  · exact C4_candidate_selection.2.2.2.1 _ _ (by decide) (by decide) (by decide)
  · exact C4_candidate_selection.2.2.2.2.1 _ _ _ (by decide)
  · exact C4_candidate_selection.2.2.2.2.2.1 _ _ _ (by decide) rfl (by decide)
  · exact C4_candidate_selection.2.2.2.2.2.2 _ _ (by decide) (by decide)

/-- C5 counterexample: the claim says a present `config.maxTokens`
always takes precedence, but line 226 uses JS truthy `||`, so a present
override of `0` is discarded and the computed budget (here
`max(4096, ...)`) is used instead; the `Math.max(4096, ...)` literal of
line 227 also sits on top of the claimed formula. -/
theorem C5_counterexample :
    ccMaxTokens { temperature := none, maxTokens := some 0 } 10 1 100 0 = 4096 ∧
    (4096 : ℕ) ≠ 0 := by
  constructor
  · simp [ccMaxTokens, calculateMaxTokens]
  · decide

/-- C5 (amended): with `config.maxTokens` absent **or zero**, the
effective budget is `max(L, max(floor, min(ceil(len × mult), ceiling)))`
where the literal `L` is 4096 for the chat-completions helper and 2000
for Gemini, over the provider's floor/ceiling/multiplier constants; a
present non-zero `config.maxTokens` takes precedence verbatim; and for
fixed bounds and non-negative multiplier the computed
`calculateMaxTokens` budget is non-decreasing in input length, at least
the floor, and at most the ceiling whenever floor ≤ ceiling. -/
theorem C5_token_budget :
    (∀ (temp : Option ℚ) (len fl ce : ℕ) (mult : ℚ),
      ccMaxTokens { temperature := temp, maxTokens := none } len fl ce mult =
        max 4096 (calculateMaxTokens len fl ce mult) ∧
      ccMaxTokens { temperature := temp, maxTokens := some 0 } len fl ce mult =
        max 4096 (calculateMaxTokens len fl ce mult) ∧
      geminiMaxOutputTokens { temperature := temp, maxTokens := none } len fl ce mult =
        max 2000 (calculateMaxTokens len fl ce mult) ∧
      geminiMaxOutputTokens { temperature := temp, maxTokens := some 0 } len fl ce mult =
        max 2000 (calculateMaxTokens len fl ce mult)) ∧
    (∀ (temp : Option ℚ) (m len fl ce : ℕ) (mult : ℚ), m ≠ 0 →
      ccMaxTokens { temperature := temp, maxTokens := some m } len fl ce mult = m ∧
      geminiMaxOutputTokens { temperature := temp, maxTokens := some m } len fl ce mult = m) ∧
    (∀ (fl ce : ℕ) (mult : ℚ) (len len' : ℕ), 0 ≤ mult → len ≤ len' →
      calculateMaxTokens len fl ce mult ≤ calculateMaxTokens len' fl ce mult) ∧
    (∀ (len fl ce : ℕ) (mult : ℚ), fl ≤ calculateMaxTokens len fl ce mult) ∧
    (∀ (len fl ce : ℕ) (mult : ℚ), fl ≤ ce → calculateMaxTokens len fl ce mult ≤ ce) := by
  refine ⟨?_, ?_, ?_, ?_, ?_⟩
  · intro temp len fl ce mult
    refine ⟨rfl, by simp [ccMaxTokens], rfl, by simp [geminiMaxOutputTokens]⟩
  · intro temp m len fl ce mult hm
    exact ⟨by simp [ccMaxTokens, hm], by simp [geminiMaxOutputTokens, hm]⟩
  · intro fl ce mult len len' hmult hlen
    unfold calculateMaxTokens
    refine max_le_max le_rfl (min_le_min ?_ le_rfl)
    exact Int.toNat_le_toNat (Int.ceil_le_ceil
      (mul_le_mul_of_nonneg_right (by exact_mod_cast hlen) hmult))
  · intro len fl ce mult
    exact le_max_left _ _
  · intro len fl ce mult h
    exact max_le h (min_le_right _ _)

/-- C5 witness: concrete instances of the hypothesis-bearing conjuncts
of `C5_token_budget`. -/
theorem C5_token_budget_witness :
    ccMaxTokens { temperature := none, maxTokens := some 7 } 3 1 100 1 = 7 ∧
    geminiMaxOutputTokens { temperature := none, maxTokens := some 7 } 3 1 100 1 = 7 ∧
    calculateMaxTokens 3 1 100 1 ≤ calculateMaxTokens 5 1 100 1 ∧
    1 ≤ calculateMaxTokens 3 1 100 1 ∧
    calculateMaxTokens 3 1 100 1 ≤ 100 :=
  ⟨(C5_token_budget.2.1 none 7 3 1 100 1 (by decide)).1,
   (C5_token_budget.2.1 none 7 3 1 100 1 (by decide)).2,
   C5_token_budget.2.2.1 1 100 1 3 5 zero_le_one (by decide),
   C5_token_budget.2.2.2.1 3 1 100 1,
   C5_token_budget.2.2.2.2 3 1 100 1 (by decide)⟩

/-- Helper: with `candidates[0]` present but lacking truthy first-part
text, the Gemini parse yields exactly the finish-reason-selected
error. -/
theorem parseGeminiResponse_empty (r : GeminiResponse) (cand : GeminiCandidate)
    (rest : List GeminiCandidate) (h1 : r.candidates = some (cand :: rest))
    (h2 : geminiTruthyText cand = none) :
    parseGeminiResponse r =
      .error (if cand.finishReason = some ("MAX_TOKENS") then geminiTokenLimitMsg
              else geminiEmptyMsg) := by
  simp only [parseGeminiResponse, h1]
  simp only [geminiTruthyText] at h2
  cases hft : geminiFirstPartText cand with
  | none =>
    simp only [hft]
    by_cases hf : cand.finishReason = some ("MAX_TOKENS") <;> simp [hf]
  | some t =>
    rw [hft] at h2
    by_cases ht : t = ""
    · subst ht
      simp only [hft, if_true]
      by_cases hf : cand.finishReason = some ("MAX_TOKENS") <;> simp [hf]
    · simp [ht] at h2

/-- C6: a 2xx Gemini response whose `candidates[0]` lacks a truthy
`content.parts[0].text` always fails: with
`finishReason === "MAX_TOKENS"` it raises the distinct token-limit
error, otherwise the generic empty-response error; the two messages
differ, and in neither case does the driver return any success value
(so the original input text is never substituted). -/
theorem C6_gemini_empty_policy :
    ∀ (r : GeminiResponse) (cand : GeminiCandidate) (rest : List GeminiCandidate),
      r.candidates = some (cand :: rest) →
      geminiTruthyText cand = none →
      parseGeminiResponse r =
        .error (if cand.finishReason = some ("MAX_TOKENS") then geminiTokenLimitMsg
                else geminiEmptyMsg) ∧
      geminiTokenLimitMsg ≠ geminiEmptyMsg ∧
      (∀ s, parseGeminiResponse r ≠ .ok s) := by
  intro r cand rest h1 h2
  have heq := parseGeminiResponse_empty r cand rest h1 h2
  refine ⟨heq, by decide, fun s => ?_⟩
  rw [heq]
  simp

/-- C6 witness: the spec's own scenario
`{candidates:[{finishReason:"MAX_TOKENS", content:{}}]}` raises the
token-limit error, and a candidate without finish reason raises the
generic empty-response error. -/
theorem C6_gemini_empty_policy_witness :
    parseGeminiResponse
        { candidates := some [{ content := some { parts := none }
                                finishReason := some ("MAX_TOKENS") }] } =
      .error (if (some ("MAX_TOKENS") : Option String) = some ("MAX_TOKENS")
              then geminiTokenLimitMsg else geminiEmptyMsg) ∧
    geminiTokenLimitMsg ≠ geminiEmptyMsg ∧
    (∀ s, parseGeminiResponse
        { candidates := some [{ content := some { parts := none }
                                finishReason := some ("MAX_TOKENS") }] } ≠ .ok s) :=
  C6_gemini_empty_policy _ _ _ rfl (by decide)

/-- C7: for every stored custom base URL (non-blank after trim), writing
`normalized` for the normalization result (with an empty normalization
replaced by the default), `getConfiguredOpenAIBase` returns the built-in
default whenever `normalized` matches a known non-OpenAI provider domain
or is neither `https://` nor loopback; it returns `normalized` itself
exactly when it matches no known non-OpenAI domain and is `https://` or
loopback. -/
theorem C7_base_url_policy :
    ∀ (defaultBase : String) (normalizeBaseUrl : String → String) (s : String),
      jsTrim s ≠ "" →
      (let n := normalizeBaseUrl (jsTrim s)
       let normalized := if n = "" then defaultBase else n
       (isKnownNonOpenAI normalized = true →
         getConfiguredOpenAIBase defaultBase normalizeBaseUrl (some s) = defaultBase) ∧
       (strStartsWith normalized ("https://") = false → isLocalhostUrl normalized = false →
         getConfiguredOpenAIBase defaultBase normalizeBaseUrl (some s) = defaultBase) ∧
       (isKnownNonOpenAI normalized = false →
        (strStartsWith normalized ("https://") = true ∨ isLocalhostUrl normalized = true) →
         getConfiguredOpenAIBase defaultBase normalizeBaseUrl (some s) = normalized)) := by
  intro defaultBase normalizeBaseUrl s hs
  refine ⟨?_, ?_, ?_⟩
  · intro hk
    simp [getConfiguredOpenAIBase, hs, hk]
  · intro h1 h2
    by_cases hk : isKnownNonOpenAI (if normalizeBaseUrl (jsTrim s) = "" then defaultBase
        else normalizeBaseUrl (jsTrim s)) = true
    · simp [getConfiguredOpenAIBase, hs, hk]
    · simp [getConfiguredOpenAIBase, hs, hk, h1, h2]
  · intro hk hsec
    cases hsec with
    | inl h => simp [getConfiguredOpenAIBase, hs, hk, h]
    | inr h => simp [getConfiguredOpenAIBase, hs, hk, h]

/-- C7 witness: a known non-OpenAI URL and a plain-HTTP URL are both
replaced by the default; an HTTPS URL and an HTTP loopback URL are
kept. -/
theorem C7_base_url_policy_witness :
    getConfiguredOpenAIBase ("https://base.example/v1") (fun x => x)
        (some ("https://api.groq.com/openai/v1")) = "https://base.example/v1" ∧
    getConfiguredOpenAIBase ("https://base.example/v1") (fun x => x)
        (some ("http://evil.example/v1")) = "https://base.example/v1" ∧
    getConfiguredOpenAIBase ("https://base.example/v1") (fun x => x)
        (some ("https://my.example/v1")) = "https://my.example/v1" ∧
    getConfiguredOpenAIBase ("https://base.example/v1") (fun x => x)
        (some ("http://localhost:1234/v1")) = "http://localhost:1234/v1" := by
  refine ⟨?_, ?_, ?_, ?_⟩
  · exact (C7_base_url_policy _ (fun x => x) _ (by decide)).1 (by decide)
  · exact (C7_base_url_policy _ (fun x => x) _ (by decide)).2.1 (by decide) (by decide)
  · exact (C7_base_url_policy _ (fun x => x) _ (by decide)).2.2 (by decide) (Or.inl (by decide))
  · exact (C7_base_url_policy _ (fun x => x) _ (by decide)).2.2 (by decide) (Or.inr (by decide))

/-- C8: `processText`'s routing decision (a pure computation that runs
before any driver, credential lookup or network request) throws the
no-model-selected error for every model that is empty after trimming,
and the unsupported-provider error for every trimmed model the registry
classifies outside the closed set
`{openai, anthropic, local, gemini, groq}`. -/
theorem C8_model_validation :
    (∀ (getModelProvider : String → String) (model : String),
      jsTrim model = "" →
      processTextRoute getModelProvider model = .error ("No reasoning model selected")) ∧
    (∀ (getModelProvider : String → String) (model : String),
      jsTrim model ≠ "" →
      getModelProvider (jsTrim model) ∉ supportedProviders →
      processTextRoute getModelProvider model =
        .error ("Unsupported reasoning provider: " ++ getModelProvider (jsTrim model))) := by
  constructor
  · intro gp model h
    simp [processTextRoute, h]
  · intro gp model ht hmem
    have h1 : gp (jsTrim model) ≠ "openai" := fun e => hmem (by rw [e]; simp [supportedProviders])
    have h2 : gp (jsTrim model) ≠ "anthropic" := fun e => hmem (by rw [e]; simp [supportedProviders])
    have h3 : gp (jsTrim model) ≠ "local" := fun e => hmem (by rw [e]; simp [supportedProviders])
    have h4 : gp (jsTrim model) ≠ "gemini" := fun e => hmem (by rw [e]; simp [supportedProviders])
    have h5 : gp (jsTrim model) ≠ "groq" := fun e => hmem (by rw [e]; simp [supportedProviders])
    simp [processTextRoute, ht, h1, h2, h3, h4, h5]

/-- C8 witness: a whitespace-only model and a model classified as an
unknown provider both fail with the respective configuration errors. -/
theorem C8_model_validation_witness :
    processTextRoute (fun _ => "mistral") ("   ") =
      .error ("No reasoning model selected") ∧
    processTextRoute (fun _ => "mistral") ("some-model") =
      .error ("Unsupported reasoning provider: " ++ (fun (_ : String) => "mistral") (jsTrim ("some-model"))) :=
  ⟨C8_model_validation.1 _ _ (by decide),
   C8_model_validation.2 _ _ (by decide) (by decide)⟩

/-- C9 counterexample: the claim says the issued temperature equals
`config.temperature` whenever present **including the value 0**, but the
Gemini driver (line 763) and the OpenAI chat shape (line 472) use JS
truthy `||`, so a present temperature of `0` is replaced by the default
`0.3`. -/
theorem C9_counterexample :
    geminiTemperature { temperature := some 0, maxTokens := none } = defaultTemperature ∧
    openAIRequestTemperature .chat ("gpt-4") { temperature := some 0, maxTokens := none } =
      some defaultTemperature ∧
    (0 : ℚ) ≠ defaultTemperature := by
  decide

/-- C9 (amended): the chat-completions helper (Groq) issues
`config.temperature` whenever present — including `0` — and the default
`0.3` only when absent; the Gemini driver and the OpenAI chat shape
issue `config.temperature` only when present and non-zero, replacing
both absence and `0` by the default `0.3`; and in the OpenAI driver a
temperature field is included only for the chat shape and only when the
model name begins with `gpt-4` or `gpt-3`, never for the responses
shape. -/
theorem C9_temperature :
    (∀ (t : ℚ) (mt : Option ℕ),
      ccTemperature { temperature := some t, maxTokens := mt } = t) ∧
    (∀ (mt : Option ℕ),
      ccTemperature { temperature := none, maxTokens := mt } = defaultTemperature) ∧
    (∀ (t : ℚ) (mt : Option ℕ), t ≠ 0 →
      geminiTemperature { temperature := some t, maxTokens := mt } = t) ∧
    (∀ (mt : Option ℕ),
      geminiTemperature { temperature := none, maxTokens := mt } = defaultTemperature ∧
      geminiTemperature { temperature := some 0, maxTokens := mt } = defaultTemperature) ∧
    (∀ (model : String) (cfg : ReasoningConfig),
      openAIRequestTemperature .responses model cfg = none) ∧
    (∀ (model : String) (cfg : ReasoningConfig), isOlderModel model = false →
      openAIRequestTemperature .chat model cfg = none) ∧
    (∀ (model : String) (t : ℚ) (mt : Option ℕ), isOlderModel model = true → t ≠ 0 →
      openAIRequestTemperature .chat model { temperature := some t, maxTokens := mt } = some t) ∧
    (∀ (model : String) (mt : Option ℕ), isOlderModel model = true →
      openAIRequestTemperature .chat model { temperature := none, maxTokens := mt } =
        some defaultTemperature ∧
      openAIRequestTemperature .chat model { temperature := some 0, maxTokens := mt } =
        some defaultTemperature) := by
  refine ⟨fun t mt => rfl, fun mt => rfl, ?_, ?_, fun model cfg => rfl, ?_, ?_, ?_⟩
  · intro t mt ht
    simp [geminiTemperature, ht]
  · intro mt
    exact ⟨rfl, by simp [geminiTemperature]⟩
  · intro model cfg h
    simp [openAIRequestTemperature, h]
  · intro model t mt h ht
    simp [openAIRequestTemperature, h, ht]
  · intro model mt h
    constructor <;> simp [openAIRequestTemperature, h]

/-- C9 witness: concrete instances of the hypothesis-bearing conjuncts
of `C9_temperature`. -/
theorem C9_temperature_witness :
    geminiTemperature { temperature := some 1, maxTokens := none } = 1 ∧
    openAIRequestTemperature .chat ("o3") { temperature := some 1, maxTokens := none } = none ∧
    openAIRequestTemperature .chat ("gpt-4") { temperature := some 1, maxTokens := none } = some 1 ∧
    openAIRequestTemperature .chat ("gpt-3.5-turbo") { temperature := none, maxTokens := none } =
      some defaultTemperature :=
  ⟨C9_temperature.2.2.1 1 none (by decide),
   C9_temperature.2.2.2.2.2.1 ("o3") _ (by decide),
   C9_temperature.2.2.2.2.2.2.1 ("gpt-4") 1 none (by decide) (by decide),
   (C9_temperature.2.2.2.2.2.2.2 ("gpt-3.5-turbo") none (by decide)).1⟩

/-- C10: when the trimmed model resolves to the `groq` provider,
`processText` dispatches the original **untrimmed** model argument
(line 379 passes `model`, not `trimmedModel`), and the chat-completions
request body carries that model verbatim, so surrounding whitespace is
retained; the `openai`, `anthropic`, `local` and `gemini` arms dispatch
the trimmed model string. -/
theorem C10_groq_untrimmed_dispatch :
    (∀ (getModelProvider : String → String) (model : String),
      jsTrim model ≠ "" → getModelProvider (jsTrim model) = "groq" →
      processTextRoute getModelProvider model = .ok ("groq", model)) ∧
    (∀ (getModelProvider : String → String) (model p : String),
      jsTrim model ≠ "" → getModelProvider (jsTrim model) = p →
      (p = "openai" ∨ p = "anthropic" ∨ p = "local" ∨ p = "gemini") →
      processTextRoute getModelProvider model = .ok (p, jsTrim model)) ∧
    (∀ model : String, ccRequestModelField model = model) := by
  refine ⟨?_, ?_, fun model => rfl⟩
  · intro gp model ht hg
    simp [processTextRoute, ht, hg]
  · intro gp model p ht hp hcases
    rcases hcases with h | h | h | h <;> subst h <;> simp [processTextRoute, ht, hp]

/-- C10 witness: a whitespace-padded Groq model is dispatched untrimmed,
while an OpenAI model is dispatched trimmed. -/
theorem C10_groq_untrimmed_dispatch_witness :
    processTextRoute (fun _ => "groq") (" llama-3.3-70b ") =
      .ok ("groq", " llama-3.3-70b ") ∧
    processTextRoute (fun _ => "openai") (" gpt-5 ") =
      .ok ("openai", jsTrim (" gpt-5 ")) ∧
    ccRequestModelField (" llama-3.3-70b ") = " llama-3.3-70b " :=
  ⟨C10_groq_untrimmed_dispatch.1 _ _ (by decide) rfl,
   C10_groq_untrimmed_dispatch.2.1 _ _ _ (by decide) rfl (Or.inl rfl),
   C10_groq_untrimmed_dispatch.2.2 _⟩
